import Mathlib

/-
Verification of the travel-assistant orchestration core (src/app.py).

Shallow embedding conventions:
* the external weather provider, the Tavily search provider and the language
  model are modelled as explicit behaviour parameters enumerating the outcomes
  the source code can observe (transport failure, HTTP error status, malformed
  body, a parsed JSON body with optional fields, ranked search results, a
  scripted sequence of tool calls);
* a Python dictionary value returned by a tool is a `List (String × JVal)`;
* a Python exception propagating out of a function is `Except.error`, while a
  normally returned value is `Except.ok`;
* the process-global environment (`os.environ`) is threaded explicitly as a
  function `String → Option String`.
-/

namespace TravelAgent

/-- A JSON-ish scalar value as it appears in the dictionaries the tools build:
either a string or a number. -/
inductive JVal
  | str (s : String)
  | num (q : ℚ)
deriving DecidableEq, Repr

/-- The `location` object of the weather provider response body; each field may
be absent. -/
structure LocationObj where
  name : Option String
  country : Option String
deriving DecidableEq, Repr

/-- The `condition` object inside `current`; the `text` field may be absent. -/
structure ConditionObj where
  text : Option String
deriving DecidableEq, Repr

/-- The `current` object of the weather provider response body; each field may
be absent. -/
structure CurrentObj where
  temp_c : Option ℚ
  temp_f : Option ℚ
  condition : Option ConditionObj
  humidity : Option ℚ
  wind_kph : Option ℚ
  feelslike_c : Option ℚ
  feelslike_f : Option ℚ
  last_updated : Option String
deriving DecidableEq, Repr

/-- A parsed weather provider response body (the JSON the code indexes into);
the top-level `location` and `current` objects may themselves be absent. -/
structure WeatherBody where
  location : Option LocationObj
  current : Option CurrentObj
deriving DecidableEq, Repr

/-- Python subscript `data[key]`: produces the value when present and raises
`KeyError(key)` otherwise; `str` of that exception is the key in quotes. -/
def getItem {α : Type} (key : String) : Option α → Except String α
  | some v => Except.ok v
  | none => Except.error ("\x27" ++ key ++ "\x27")

/-- The try-block of `get_weather` after a successful HTTP round trip
(src/app.py lines 161-172): index into the parsed body, field by field in
source order, and build the nine-entry `weather_info` dictionary; the first
missing key raises. -/
def buildWeatherInfo (body : WeatherBody) : Except String (List (String × JVal)) := do
  let loc ← getItem "location" body.location
  let name ← getItem "name" loc.name
  let country ← getItem "country" loc.country
  let cur ← getItem "current" body.current
  let temp_c ← getItem "temp_c" cur.temp_c
  let temp_f ← getItem "temp_f" cur.temp_f
  let cond ← getItem "condition" cur.condition
  let condText ← getItem "text" cond.text
  let humidity ← getItem "humidity" cur.humidity
  let wind_kph ← getItem "wind_kph" cur.wind_kph
  let feelslike_c ← getItem "feelslike_c" cur.feelslike_c
  let feelslike_f ← getItem "feelslike_f" cur.feelslike_f
  let last_updated ← getItem "last_updated" cur.last_updated
  Except.ok
    [("location", JVal.str (name ++ ", " ++ country)),
     ("temperature_c", JVal.num temp_c),
     ("temperature_f", JVal.num temp_f),
     ("condition", JVal.str condText),
     ("humidity", JVal.num humidity),
     ("wind_kph", JVal.num wind_kph),
     ("feels_like_c", JVal.num feelslike_c),
     ("feels_like_f", JVal.num feelslike_f),
     ("last_updated", JVal.str last_updated)]

/-- Everything the weather provider round trip can do, as observed by the body
of `get_weather`: `requests.get` raises (transport failure),
`response.raise_for_status()` raises (HTTP error status), `response.json()`
raises (unparsable body), or a parsed body is available. Each raising case
carries the `str` of the Python exception. -/
inductive ProviderBehaviour
  | transportFailure (msg : String)
  | httpErrorStatus (status : Nat) (msg : String)
  | badJson (msg : String)
  | ok (body : WeatherBody)

/-- The whole try-block of `get_weather` (src/app.py lines 155-172): the HTTP
round trip followed by the dictionary construction; `Except.error` is an
exception reaching the `except` clause. -/
def attemptWeather : ProviderBehaviour → Except String (List (String × JVal))
  | ProviderBehaviour.transportFailure msg => Except.error msg
  | ProviderBehaviour.httpErrorStatus _ msg => Except.error msg
  | ProviderBehaviour.badJson msg => Except.error msg
  | ProviderBehaviour.ok body => buildWeatherInfo body

/-- The URL built by `get_weather` (src/app.py line 156). -/
def weatherUrl (WEATHER_API_KEY location : String) : String :=
  "http://api.weatherapi.com/v1/current.json?key=" ++ WEATHER_API_KEY ++
    "&q=" ++ location ++ "&aqi=no"

/-- The `get_weather` tool (src/app.py lines 152-174): runs the try-block and
converts any exception into the single-entry error dictionary; it never lets
an exception escape. The credential only flows into the request URL, never
into the returned value. -/
def get_weather (WEATHER_API_KEY location : String) (beh : ProviderBehaviour) :
    List (String × JVal) :=
  match attemptWeather beh with
  | Except.ok info => info
  | Except.error e =>
      [("error", JVal.str ("Failed to get weather information: " ++ e))]

/-- A provider behaviour on which the weather lookup fails: a transport
failure, an HTTP error status, an unparsable body, or a parsed body missing
an expected field. -/
def weatherFailure : ProviderBehaviour → Prop
  | ProviderBehaviour.ok body => ∃ e, buildWeatherInfo body = Except.error e
  | _ => True

/-- One ranked result from the search provider; `title` and `content` are
optional fields. -/
structure SearchResult where
  title : Option String
  content : Option String
deriving DecidableEq, Repr

/-- Everything the Tavily search call can do as observed by
`search_attractions`: raise (transport or auth failure, carrying the `str` of
the exception) or return a ranked list of results. -/
inductive SearchBehaviour
  | raiseError (msg : String)
  | results (rs : List SearchResult)

/-- The two lines the loop body of `search_attractions` appends for the result
at 1-based rank `i` (src/app.py lines 190-191), with the fixed placeholders of
`result.get` substituted for absent fields. -/
def attractionEntry (i : Nat) (r : SearchResult) : String :=
  toString i ++ ". " ++ r.title.getD "No title" ++ "\n" ++
    "   " ++ r.content.getD "No description" ++ "\n\n"

/-- The formatting loop of `search_attractions` (src/app.py lines 189-191)
starting at rank `i`: appends one entry per result, in provider order. -/
def formatEntriesFrom : Nat → List SearchResult → String
  | _, [] => ""
  | i, r :: rest => attractionEntry i r ++ formatEntriesFrom (i + 1) rest

/-- The entries the loop produces, one list element per provider result,
starting at rank `i`; used to state per-entry properties of the formatted
string. -/
def entriesFrom : Nat → List SearchResult → List String
  | _, [] => []
  | i, r :: rest => attractionEntry i r :: entriesFrom (i + 1) rest

/-- Concatenation of a list of strings in order. -/
def concatEntries : List String → String
  | [] => ""
  | s :: rest => s ++ concatEntries rest

/-- The process environment (`os.environ`), a mutable process-global map. -/
def Env : Type := String → Option String

/-- Assignment `os.environ[key] = v`. -/
def envSet (env : Env) (key v : String) : Env :=
  fun k => if k = key then some v else env k

/-- The search query built by `search_attractions` (src/app.py line 185). -/
def attractionsQuery (location : String) : String :=
  "Top tourist attractions and places to visit in " ++ location

/-- The `search_attractions` tool (src/app.py lines 177-193): first writes the
Tavily credential into the process-global environment, then invokes the search
tool — there is no try/except here, so a raising search call propagates out as
`Except.error` — and otherwise formats the results. Returns the environment
after the call together with the outcome. -/
def search_attractions (TAVILY_API_KEY location : String)
    (beh : SearchBehaviour) (env : Env) : Env × Except String String :=
  let env2 := envSet env "TAVILY_API_KEY" TAVILY_API_KEY
  match beh with
  | SearchBehaviour.raiseError msg => (env2, Except.error msg)
  | SearchBehaviour.results rs =>
      (env2, Except.ok ("Top Attractions:\n\n" ++ formatEntriesFrom 1 rs))

/-- Python `sep.join(l)` on a list of strings. -/
def pyJoin (sep : String) : List String → String
  | [] => ""
  | [s] => s
  | s :: rest => s ++ sep ++ pyJoin sep rest

/-- The `interests_str` expression of `run_travel_assistant` (src/app.py line
230): the comma-joined interests, or the fixed fallback when the list is
falsy (empty). -/
def interestsStr (interests : List String) : String :=
  if interests = [] then "general sightseeing" else pyJoin ", " interests

/-- The `input` string submitted to the agent by `run_travel_assistant`
(src/app.py line 232). -/
def taskInput (destination : String) (interests : List String) : String :=
  "I\x27m planning to visit " ++ destination ++ ". I\x27m interested in " ++
    interestsStr interests ++
    ". What\x27s the weather like and what are some attractions I should see?"

/-- Rendering of a scalar value into the observation text fed back to the
model. -/
def renderJVal : JVal → String
  | JVal.str s => s
  | JVal.num q => toString q

/-- Modelled from the spec: the structured tool result (a dictionary) is
appended to the model conversation as an observation; the exact serialization
belongs to the agent runtime (langchain), which is not part of src/. -/
def renderWeather (d : List (String × JVal)) : String :=
  String.intercalate ", " (d.map (fun p => p.1 ++ ": " ++ renderJVal p.2))

/-- Modelled from the spec: a tool invocation the model may request — one of
the two registered tools, with a location argument. -/
inductive ToolReq
  | weather (loc : String)
  | attractions (loc : String)

/-- A network interaction performed by the flow: the weather HTTP GET, the
Tavily search call, or the language-model invocation. -/
inductive NetCall
  | weatherGet (url : String)
  | tavilySearch (query : String)
  | modelCall (input : String)
deriving DecidableEq, Repr

/-- Modelled from the spec: the behaviour of the language-model side of the
agent executor (not in src/, provided by langchain): either the model call
fails outright, or the model requests a finite sequence of tool invocations
(finiteness is the step cap of the model runtime) and then produces a final
answer from the observations it has seen. -/
inductive ModelBehaviour
  | fail (msg : String)
  | script (reqs : List ToolReq) (final : List String → String)

/-- Modelled from the spec: the agent executor dispatches one requested tool
invocation synchronously, recording the network call it performs, the
environment afterwards, and the observation (or the exception the tool let
escape). The weather tool always yields an observation — its error dictionary
is itself a value; the attractions tool propagates its exception. -/
def dispatchTool (WEATHER_API_KEY TAVILY_API_KEY : String)
    (wb : ProviderBehaviour) (sb : SearchBehaviour) (env : Env) :
    ToolReq → NetCall × Env × Except String String
  | ToolReq.weather loc =>
      (NetCall.weatherGet (weatherUrl WEATHER_API_KEY loc), env,
        Except.ok (renderWeather (get_weather WEATHER_API_KEY loc wb)))
  | ToolReq.attractions loc =>
      let r := search_attractions TAVILY_API_KEY loc sb env
      (NetCall.tavilySearch (attractionsQuery loc), r.1, r.2)

/-- Modelled from the spec: the tool-dispatch loop — each requested invocation
runs synchronously in order, its observation is accumulated, and an exception
escaping a tool aborts the loop and propagates. Returns the network calls
performed, the final environment, and either the observation list or the
propagated exception. -/
def runToolLoop (WEATHER_API_KEY TAVILY_API_KEY : String)
    (wb : ProviderBehaviour) (sb : SearchBehaviour) :
    List ToolReq → Env → List NetCall × Env × Except String (List String)
  | [], env => ([], env, Except.ok [])
  | req :: rest, env =>
      let d := dispatchTool WEATHER_API_KEY TAVILY_API_KEY wb sb env req
      match d.2.2 with
      | Except.error e => ([d.1], d.2.1, Except.error e)
      | Except.ok obs =>
          let r := runToolLoop WEATHER_API_KEY TAVILY_API_KEY wb sb rest d.2.1
          (d.1 :: r.1, r.2.1,
            match r.2.2 with
            | Except.error e => Except.error e
            | Except.ok more => Except.ok (obs :: more))

/-- The composer `run_travel_assistant` (src/app.py lines 229-234) together
with the agent-executor loop it invokes (modelled from the spec): build the
task input, submit it to the model, run the requested tools, and return the
model output — or the exception that escaped the model call or a tool. -/
def run_travel_assistant (WEATHER_API_KEY TAVILY_API_KEY : String)
    (destination : String) (interests : List String)
    (wb : ProviderBehaviour) (sb : SearchBehaviour) (mb : ModelBehaviour)
    (env : Env) : List NetCall × Env × Except String String :=
  let input := taskInput destination interests
  match mb with
  | ModelBehaviour.fail msg => ([NetCall.modelCall input], env, Except.error msg)
  | ModelBehaviour.script reqs final =>
      let r := runToolLoop WEATHER_API_KEY TAVILY_API_KEY wb sb reqs env
      (NetCall.modelCall input :: r.1, r.2.1,
        match r.2.2 with
        | Except.error e => Except.error e
        | Except.ok obs => Except.ok (final obs))

/-- The three credentials entered in the settings tab (src/app.py lines
118-123). -/
structure Keys where
  google : String
  tavily : String
  weather : String

/-- What the page shows after the submit-handling block (src/app.py lines
237-289): nothing happened, the missing-keys error, the stored result, or the
caught-exception error message. -/
inductive FlowResult
  | noAction
  | missingKeys
  | success (text : String)
  | errorShown (msg : String)
deriving DecidableEq, Repr

/-- Python truthiness of a string: non-empty. -/
def truthyStr (s : String) : Bool := !(s == "")

/-- The submit-handling block (src/app.py lines 237-289): the gate
`if submit_button and destination:`, then the `all([...])` key check, then one
run of the assistant with the page-level exception handler around it. Returns
the network calls made, the environment afterwards, and the displayed
outcome. -/
def submitFlow (submit_button : Bool) (destination : String)
    (interests : List String) (keys : Keys) (wb : ProviderBehaviour)
    (sb : SearchBehaviour) (mb : ModelBehaviour) (env : Env) :
    List NetCall × Env × FlowResult :=
  if submit_button && truthyStr destination then
    if truthyStr keys.google && truthyStr keys.tavily && truthyStr keys.weather then
      let r := run_travel_assistant keys.weather keys.tavily destination
        interests wb sb mb env
      (r.1, r.2.1,
        match r.2.2 with
        | Except.ok text => FlowResult.success text
        | Except.error e => FlowResult.errorShown ("An error occurred: " ++ e))
    else ([], env, FlowResult.missingKeys)
  else ([], env, FlowResult.noAction)

/-- Helper for reasoning about joining: the tail of a joined list, the
separator prepended before every element. -/
def prependAll (sep : String) : List String → String
  | [] => ""
  | s :: rest => sep ++ s ++ prependAll sep rest

/-! Helper lemmas shared by the claim theorems. -/

theorem envSet_offkey (env : Env) (key v k : String) (hk : k ≠ key) :
    envSet env key v k = env k := by
  simp [envSet, hk]

theorem search_attractions_env (tk loc : String) (sb : SearchBehaviour)
    (env : Env) :
    (search_attractions tk loc sb env).1 = envSet env "TAVILY_API_KEY" tk := by
  cases sb <;> rfl

theorem search_attractions_result_env_indep (tk loc : String)
    (sb : SearchBehaviour) (env env' : Env) :
    (search_attractions tk loc sb env).2 = (search_attractions tk loc sb env').2 := by
  cases sb <;> rfl

theorem buildWeatherInfo_shape (body : WeatherBody) :
    (∃ name country tc tf ct hum wk fc ff lu,
      buildWeatherInfo body = Except.ok
        [("location", JVal.str (name ++ ", " ++ country)),
         ("temperature_c", JVal.num tc),
         ("temperature_f", JVal.num tf),
         ("condition", JVal.str ct),
         ("humidity", JVal.num hum),
         ("wind_kph", JVal.num wk),
         ("feels_like_c", JVal.num fc),
         ("feels_like_f", JVal.num ff),
         ("last_updated", JVal.str lu)]) ∨
    (∃ e, buildWeatherInfo body = Except.error e) := by
  obtain ⟨loc, cur⟩ := body
  rcases loc with _ | ⟨name, country⟩
  · exact Or.inr ⟨_, rfl⟩
  rcases name with _ | name
  · exact Or.inr ⟨_, rfl⟩
  rcases country with _ | country
  · exact Or.inr ⟨_, rfl⟩
  rcases cur with _ | ⟨tc, tf, cond, hum, wk, fc, ff, lu⟩
  · exact Or.inr ⟨_, rfl⟩
  rcases tc with _ | tc
  · exact Or.inr ⟨_, rfl⟩
  rcases tf with _ | tf
  · exact Or.inr ⟨_, rfl⟩
  rcases cond with _ | ⟨ct⟩
  · exact Or.inr ⟨_, rfl⟩
  rcases ct with _ | ct
  · exact Or.inr ⟨_, rfl⟩
  rcases hum with _ | hum
  · exact Or.inr ⟨_, rfl⟩
  rcases wk with _ | wk
  · exact Or.inr ⟨_, rfl⟩
  rcases fc with _ | fc
  · exact Or.inr ⟨_, rfl⟩
  rcases ff with _ | ff
  · exact Or.inr ⟨_, rfl⟩
  rcases lu with _ | lu
  · exact Or.inr ⟨_, rfl⟩
  exact Or.inl ⟨name, country, tc, tf, ct, hum, wk, fc, ff, lu, rfl⟩

theorem formatEntriesFrom_eq_concat (i : Nat) (rs : List SearchResult) :
    formatEntriesFrom i rs = concatEntries (entriesFrom i rs) := by
  induction rs generalizing i with
  | nil => rfl
  | cons r rest ih => simp [formatEntriesFrom, entriesFrom, concatEntries, ih]

theorem entriesFrom_length (i : Nat) (rs : List SearchResult) :
    (entriesFrom i rs).length = rs.length := by
  induction rs generalizing i with
  | nil => rfl
  | cons r rest ih => simp [entriesFrom, ih]

theorem entriesFrom_get (i : Nat) (rs : List SearchResult) (j : Nat)
    (h : j < rs.length) (h2 : j < (entriesFrom i rs).length) :
    (entriesFrom i rs).get ⟨j, h2⟩ = attractionEntry (i + j) (rs.get ⟨j, h⟩) := by
  induction rs generalizing i j with
  | nil => exact absurd h (Nat.not_lt_zero j)
  | cons r rest ih =>
    cases j with
    | zero => simp [entriesFrom]
    | succ j =>
      have h3 : j < rest.length := Nat.lt_of_succ_lt_succ h
      have h4 : j < (entriesFrom (i + 1) rest).length := by
        rw [entriesFrom_length]; exact h3
      have := ih (i + 1) j h3 h4
      simp only [entriesFrom, List.get, this]
      rw [Nat.add_assoc, Nat.add_comm 1 j]

theorem intercalate_go_eq (sep : String) (l : List String) (acc : String) :
    String.intercalate.go acc sep l = acc ++ prependAll sep l := by
  induction l generalizing acc with
  | nil => simp [String.intercalate.go, prependAll]
  | cons a as ih =>
    rw [String.intercalate.go, ih, prependAll]
    simp [String.append_assoc]

theorem pyJoin_eq_prependAll (sep a : String) (as : List String) :
    pyJoin sep (a :: as) = a ++ prependAll sep as := by
  induction as generalizing a with
  | nil => simp [pyJoin, prependAll]
  | cons b bs ih =>
    show a ++ sep ++ pyJoin sep (b :: bs) = a ++ prependAll sep (b :: bs)
    rw [ih b, prependAll]
    simp [String.append_assoc]

theorem pyJoin_eq_intercalate (sep : String) (l : List String) :
    pyJoin sep l = String.intercalate sep l := by
  cases l with
  | nil => rfl
  | cons a as =>
    calc pyJoin sep (a :: as) = a ++ prependAll sep as := pyJoin_eq_prependAll sep a as
      _ = String.intercalate.go a sep as := (intercalate_go_eq sep as a).symm
      _ = String.intercalate sep (a :: as) := rfl

theorem runToolLoop_ok (wk tk : String) (wb : ProviderBehaviour)
    (rs : List SearchResult) (reqs : List ToolReq) (env : Env) :
    ∃ obs, (runToolLoop wk tk wb (SearchBehaviour.results rs) reqs env).2.2 =
      Except.ok obs := by
  induction reqs generalizing env with
  | nil => exact ⟨[], rfl⟩
  | cons req rest ih =>
    cases req with
    | weather loc =>
      obtain ⟨obs, hobs⟩ := ih env
      exact ⟨renderWeather (get_weather wk loc wb) :: obs,
        by simp [runToolLoop, dispatchTool, hobs]⟩
    | attractions loc =>
      obtain ⟨obs, hobs⟩ := ih (envSet env "TAVILY_API_KEY" tk)
      exact ⟨("Top Attractions:\n\n" ++ formatEntriesFrom 1 rs) :: obs,
        by simp [runToolLoop, dispatchTool, search_attractions, hobs]⟩

theorem runToolLoop_env_offkey (wk tk : String) (wb : ProviderBehaviour)
    (sb : SearchBehaviour) (reqs : List ToolReq) (env : Env) (k : String)
    (hk : k ≠ "TAVILY_API_KEY") :
    (runToolLoop wk tk wb sb reqs env).2.1 k = env k := by
  induction reqs generalizing env with
  | nil => rfl
  | cons req rest ih =>
    cases req with
    | weather loc => simpa [runToolLoop, dispatchTool] using ih env
    | attractions loc =>
      cases sb with
      | raiseError m =>
        simp [runToolLoop, dispatchTool, search_attractions, envSet_offkey _ _ _ _ hk]
      | results rs =>
        have := ih (envSet env "TAVILY_API_KEY" tk)
        simpa [runToolLoop, dispatchTool, search_attractions,
          envSet_offkey _ _ _ _ hk] using this

theorem run_travel_assistant_env_offkey (wk tk dest : String)
    (interests : List String) (wb : ProviderBehaviour) (sb : SearchBehaviour)
    (mb : ModelBehaviour) (env : Env) (k : String)
    (hk : k ≠ "TAVILY_API_KEY") :
    (run_travel_assistant wk tk dest interests wb sb mb env).2.1 k = env k := by
  cases mb with
  | fail m => rfl
  | script reqs final => exact runToolLoop_env_offkey wk tk wb sb reqs env k hk

theorem submitFlow_env_offkey (b : Bool) (dest : String)
    (interests : List String) (keys : Keys) (wb : ProviderBehaviour)
    (sb : SearchBehaviour) (mb : ModelBehaviour) (env : Env) (k : String)
    (hk : k ≠ "TAVILY_API_KEY") :
    (submitFlow b dest interests keys wb sb mb env).2.1 k = env k := by
  unfold submitFlow
  split
  · split
    · exact run_travel_assistant_env_offkey keys.weather keys.tavily dest
        interests wb sb mb env k hk
    · rfl
  · rfl

theorem runToolLoop_env_indep (wk tk : String) (wb : ProviderBehaviour)
    (sb : SearchBehaviour) (reqs : List ToolReq) (env env' : Env) :
    (runToolLoop wk tk wb sb reqs env).1 = (runToolLoop wk tk wb sb reqs env').1 ∧
    (runToolLoop wk tk wb sb reqs env).2.2 = (runToolLoop wk tk wb sb reqs env').2.2 := by
  induction reqs generalizing env env' with
  | nil => exact ⟨rfl, rfl⟩
  | cons req rest ih =>
    cases req with
    | weather loc =>
      obtain ⟨h1, h2⟩ := ih env env'
      constructor <;> simp [runToolLoop, dispatchTool, h1, h2]
    | attractions loc =>
      cases sb with
      | raiseError m =>
        constructor <;> simp [runToolLoop, dispatchTool, search_attractions]
      | results rs =>
        obtain ⟨h1, h2⟩ := ih (envSet env "TAVILY_API_KEY" tk)
          (envSet env' "TAVILY_API_KEY" tk)
        constructor <;>
          simp [runToolLoop, dispatchTool, search_attractions, h1, h2]

theorem run_travel_assistant_env_indep (wk tk dest : String)
    (interests : List String) (wb : ProviderBehaviour) (sb : SearchBehaviour)
    (mb : ModelBehaviour) (env env' : Env) :
    (run_travel_assistant wk tk dest interests wb sb mb env).1 =
      (run_travel_assistant wk tk dest interests wb sb mb env').1 ∧
    (run_travel_assistant wk tk dest interests wb sb mb env).2.2 =
      (run_travel_assistant wk tk dest interests wb sb mb env').2.2 := by
  cases mb with
  | fail m => exact ⟨rfl, rfl⟩
  | script reqs final =>
    obtain ⟨h1, h2⟩ := runToolLoop_env_indep wk tk wb sb reqs env env'
    constructor <;> simp [run_travel_assistant, h1, h2]

/-- Claim C1: for every location string and every failing behaviour of the
weather provider (transport failure, HTTP error status, unparsable body, or a
body missing an expected field), `get_weather` returns the single-entry error
dictionary carrying a human-readable message — it never lets an exception
escape, so the caller always receives a value. -/
theorem get_weather_failure_returns_error_value (WEATHER_API_KEY location : String)
    (beh : ProviderBehaviour) (h : weatherFailure beh) :
    ∃ rest, get_weather WEATHER_API_KEY location beh =
      [("error", JVal.str ("Failed to get weather information: " ++ rest))] := by
  cases beh with
  | transportFailure m => exact ⟨m, rfl⟩
  | httpErrorStatus s m => exact ⟨m, rfl⟩
  | badJson m => exact ⟨m, rfl⟩
  | ok body =>
    simp only [weatherFailure] at h
    obtain ⟨e, he⟩ := h
    exact ⟨e, by simp [get_weather, attemptWeather, he]⟩

/-- Witness for C1 at a concrete transport failure. -/
theorem get_weather_failure_returns_error_value_witness :
    weatherFailure (ProviderBehaviour.transportFailure "Connection refused") ∧
    ∃ rest, get_weather "KEY" "Paris" (ProviderBehaviour.transportFailure "Connection refused") =
      [("error", JVal.str ("Failed to get weather information: " ++ rest))] :=
  ⟨trivial, get_weather_failure_returns_error_value "KEY" "Paris"
    (ProviderBehaviour.transportFailure "Connection refused") trivial⟩

/-- Claim C2: whenever the weather lookup fails (returns its error
dictionary), the composer still terminates normally with a composed answer:
the failure payload is just another observation for the model, and the run
returns `Except.ok`. -/
theorem compose_survives_weather_lookup_failure
    (WEATHER_API_KEY TAVILY_API_KEY destination : String)
    (interests : List String) (wb : ProviderBehaviour) (rs : List SearchResult)
    (reqs : List ToolReq) (final : List String → String) (env : Env)
    (h : weatherFailure wb) :
    ∃ answer, (run_travel_assistant WEATHER_API_KEY TAVILY_API_KEY destination
      interests wb (SearchBehaviour.results rs)
      (ModelBehaviour.script reqs final) env).2.2 = Except.ok answer := by
  obtain ⟨obs, hobs⟩ := runToolLoop_ok WEATHER_API_KEY TAVILY_API_KEY wb rs reqs env
  exact ⟨final obs, by simp [run_travel_assistant, hobs]⟩

/-- Witness for C2: a failing weather provider, a model script that asks for
the weather once, and a composed answer still comes back. -/
theorem compose_survives_weather_lookup_failure_witness :
    weatherFailure (ProviderBehaviour.transportFailure "timed out") ∧
    ∃ answer, (run_travel_assistant "wk" "tk" "Paris" ["Museums"]
      (ProviderBehaviour.transportFailure "timed out")
      (SearchBehaviour.results [])
      (ModelBehaviour.script [ToolReq.weather "Paris"] (String.intercalate "\n"))
      (fun _ => none)).2.2 = Except.ok answer :=
  ⟨trivial, compose_survives_weather_lookup_failure "wk" "tk" "Paris" ["Museums"]
    (ProviderBehaviour.transportFailure "timed out") [] [ToolReq.weather "Paris"]
    (String.intercalate "\n") (fun _ => none) trivial⟩

/-- Claim C3 counterexample: `search_attractions` has no try/except, so at a
concrete transport/auth failure of the search call the exception propagates
out of the lookup boundary (`Except.error` in this embedding models an
uncaught Python exception) instead of a returned LookupError value — the
claimed contract fails. -/
theorem search_attractions_raises_at_auth_failure :
    (search_attractions "tk" "Paris" (SearchBehaviour.raiseError "Tavily auth failed")
      (fun _ => none)).2 = Except.error "Tavily auth failed" := rfl

/-- Claim C3 (amended): for every location, `search_attractions` either
returns the formatted attraction string (when the provider returns results)
or lets the exception of a failing transport/auth call propagate out of the
lookup boundary; no LookupError value is produced there. -/
theorem search_attractions_ok_or_propagates (TAVILY_API_KEY location : String)
    (beh : SearchBehaviour) (env : Env) :
    (∃ rs, beh = SearchBehaviour.results rs ∧
      (search_attractions TAVILY_API_KEY location beh env).2 =
        Except.ok ("Top Attractions:\n\n" ++ formatEntriesFrom 1 rs)) ∨
    (∃ m, beh = SearchBehaviour.raiseError m ∧
      (search_attractions TAVILY_API_KEY location beh env).2 = Except.error m) := by
  cases beh with
  | raiseError m => exact Or.inr ⟨m, rfl, rfl⟩
  | results rs => exact Or.inl ⟨rs, rfl, rfl⟩

/-- Claim C4: for every provider response list of length at most 5, the
formatted output of `search_attractions` has exactly one entry per provider
result, and each entry substitutes the fixed placeholders for absent `title`
and `content` fields. -/
theorem search_attractions_placeholders_and_count
    (TAVILY_API_KEY location : String) (env : Env) (rs : List SearchResult)
    (hlen : rs.length ≤ 5) :
    (search_attractions TAVILY_API_KEY location (SearchBehaviour.results rs) env).2 =
      Except.ok ("Top Attractions:\n\n" ++ concatEntries (entriesFrom 1 rs)) ∧
    (entriesFrom 1 rs).length = rs.length ∧
    ∀ j (h : j < rs.length) (h2 : j < (entriesFrom 1 rs).length),
      (entriesFrom 1 rs).get ⟨j, h2⟩ =
        toString (j + 1) ++ ". " ++ (rs.get ⟨j, h⟩).title.getD "No title" ++ "\n" ++
          "   " ++ (rs.get ⟨j, h⟩).content.getD "No description" ++ "\n\n" := by
  refine ⟨?_, entriesFrom_length 1 rs, ?_⟩
  · simp [search_attractions, formatEntriesFrom_eq_concat]
  · intro j h h2
    rw [entriesFrom_get 1 rs j h h2, Nat.add_comm 1 j]
    rfl

/-- Witness for C4: two results, one missing its title, one missing its
content; both placeholders appear and both entries are present. -/
theorem search_attractions_placeholders_and_count_witness :
    (([⟨none, some "desc"⟩, ⟨some "Eiffel Tower", none⟩] : List SearchResult).length ≤ 5) ∧
    (search_attractions "tk" "Paris"
        (SearchBehaviour.results [⟨none, some "desc"⟩, ⟨some "Eiffel Tower", none⟩])
        (fun _ => none)).2 =
      Except.ok "Top Attractions:\n\n1. No title\n   desc\n\n2. Eiffel Tower\n   No description\n\n" :=
  ⟨by decide, by
    rw [(search_attractions_placeholders_and_count "tk" "Paris" (fun _ => none)
      [⟨none, some "desc"⟩, ⟨some "Eiffel Tower", none⟩] (by decide)).1]
    rfl⟩

/-- Claim C5: `search_attractions` preserves the ranking order of the
provider: the entry at index `j` of the formatted entry list is built from
the provider result at index `j` (at 1-based rank `1 + j`); nothing is
re-sorted. -/
theorem search_attractions_preserves_provider_order
    (TAVILY_API_KEY location : String) (env : Env) (rs : List SearchResult)
    (j : Nat) (h : j < rs.length) (h2 : j < (entriesFrom 1 rs).length) :
    (search_attractions TAVILY_API_KEY location (SearchBehaviour.results rs) env).2 =
      Except.ok ("Top Attractions:\n\n" ++ concatEntries (entriesFrom 1 rs)) ∧
    (entriesFrom 1 rs).get ⟨j, h2⟩ = attractionEntry (1 + j) (rs.get ⟨j, h⟩) := by
  refine ⟨?_, entriesFrom_get 1 rs j h h2⟩
  simp [search_attractions, formatEntriesFrom_eq_concat]

/-- Witness for C5 on the ranked fixture A, B, C at index 1. -/
theorem search_attractions_preserves_provider_order_witness :
    (1 < ([⟨some "A", some "a"⟩, ⟨some "B", some "b"⟩,
        ⟨some "C", some "c"⟩] : List SearchResult).length) ∧
    ((search_attractions "tk" "Rome"
        (SearchBehaviour.results [⟨some "A", some "a"⟩, ⟨some "B", some "b"⟩,
          ⟨some "C", some "c"⟩]) (fun _ => none)).2 =
      Except.ok ("Top Attractions:\n\n" ++ concatEntries (entriesFrom 1
        [⟨some "A", some "a"⟩, ⟨some "B", some "b"⟩, ⟨some "C", some "c"⟩])) ∧
     (entriesFrom 1 [⟨some "A", some "a"⟩, ⟨some "B", some "b"⟩,
        ⟨some "C", some "c"⟩]).get ⟨1, by decide⟩ =
      attractionEntry (1 + 1) (([⟨some "A", some "a"⟩, ⟨some "B", some "b"⟩,
        ⟨some "C", some "c"⟩] : List SearchResult).get ⟨1, by decide⟩)) :=
  ⟨by decide, search_attractions_preserves_provider_order "tk" "Rome" (fun _ => none)
    [⟨some "A", some "a"⟩, ⟨some "B", some "b"⟩, ⟨some "C", some "c"⟩]
    1 (by decide) (by decide)⟩

/-- Claim C6: a submit with an empty destination string is rejected by the
gate before anything runs: no network call is made, the environment is
untouched, and nothing is displayed. -/
theorem empty_destination_rejected_before_network (b : Bool)
    (interests : List String) (keys : Keys) (wb : ProviderBehaviour)
    (sb : SearchBehaviour) (mb : ModelBehaviour) (env : Env) :
    submitFlow b "" interests keys wb sb mb env = ([], env, FlowResult.noAction) := by
  simp [submitFlow, truthyStr]

/-- Claim C7: the first network interaction of every composer run is the model
call carrying the task description, and that description embeds the
destination and the interests joined with a comma-space in their given order —
or the fixed fallback text when the interest list is empty. -/
theorem task_description_embeds_destination_and_interests
    (WEATHER_API_KEY TAVILY_API_KEY destination : String)
    (interests : List String) (wb : ProviderBehaviour) (sb : SearchBehaviour)
    (mb : ModelBehaviour) (env : Env) :
    (∃ rest, (run_travel_assistant WEATHER_API_KEY TAVILY_API_KEY destination
        interests wb sb mb env).1 =
      NetCall.modelCall (taskInput destination interests) :: rest) ∧
    taskInput destination interests =
      "I\x27m planning to visit " ++ destination ++ ". I\x27m interested in " ++
        (if interests = [] then "general sightseeing"
          else String.intercalate ", " interests) ++
        ". What\x27s the weather like and what are some attractions I should see?" := by
  constructor
  · cases mb with
    | fail m => exact ⟨[], rfl⟩
    | script reqs final => exact ⟨_, rfl⟩
  · unfold taskInput interestsStr
    by_cases hi : interests = []
    · simp [hi]
    · simp [hi, pyJoin_eq_intercalate]

/-- Claim C8 counterexample: `search_attractions` writes the Tavily credential
into the process-global environment variable TAVILY_API_KEY on every call —
starting from an environment without that variable, it is set afterwards — so
the claim that no operation mutates process-global configuration derived from
a credential fails. -/
theorem tavily_credential_written_to_global_env :
    ((fun _ => none : Env) "TAVILY_API_KEY" = none) ∧
    ((search_attractions "tavily-secret" "Rome" (SearchBehaviour.results [])
      (fun _ => none)).1 "TAVILY_API_KEY" = some "tavily-secret") :=
  ⟨rfl, by rw [search_attractions_env]; simp [envSet]⟩

/-- Claim C8 (amended): the credential values themselves are never reassigned,
but each `search_attractions` call copies the Tavily credential into the
process-global environment variable TAVILY_API_KEY; every other environment
entry is left unchanged by the lookup and by the whole submit flow. -/
theorem credentials_read_only_except_tavily_env (TAVILY_API_KEY location : String)
    (beh : SearchBehaviour) (env : Env) (b : Bool) (destination : String)
    (interests : List String) (keys : Keys) (wb : ProviderBehaviour)
    (mb : ModelBehaviour) (k : String) (hk : k ≠ "TAVILY_API_KEY") :
    (search_attractions TAVILY_API_KEY location beh env).1 "TAVILY_API_KEY" =
      some TAVILY_API_KEY ∧
    (search_attractions TAVILY_API_KEY location beh env).1 k = env k ∧
    (submitFlow b destination interests keys wb beh mb env).2.1 k = env k := by
  refine ⟨?_, ?_, submitFlow_env_offkey b destination interests keys wb beh mb env k hk⟩
  · rw [search_attractions_env]; simp [envSet]
  · rw [search_attractions_env]; exact envSet_offkey env "TAVILY_API_KEY" TAVILY_API_KEY k hk

/-- Witness for C8 (amended) at the PATH variable. -/
theorem credentials_read_only_except_tavily_env_witness :
    ("PATH" ≠ "TAVILY_API_KEY") ∧
    ((search_attractions "sec" "Rome" (SearchBehaviour.results [])
        (fun _ => some "v")).1 "TAVILY_API_KEY" = some "sec" ∧
      (search_attractions "sec" "Rome" (SearchBehaviour.results [])
        (fun _ => some "v")).1 "PATH" = some "v" ∧
      (submitFlow false "Rome" [] ⟨"g", "t", "w"⟩
        (ProviderBehaviour.transportFailure "x") (SearchBehaviour.results [])
        (ModelBehaviour.fail "m") (fun _ => some "v")).2.1 "PATH" = some "v") :=
  ⟨by decide, credentials_read_only_except_tavily_env "sec" "Rome"
    (SearchBehaviour.results []) (fun _ => some "v") false "Rome" []
    ⟨"g", "t", "w"⟩ (ProviderBehaviour.transportFailure "x")
    (ModelBehaviour.fail "m") "PATH" (by decide)⟩

/-- Claim C9: two sequential composer runs with identical inputs and identical
provider and model behaviours produce identical output and identical network
calls, even though the first run may have changed the process environment: the
outcome does not depend on hidden state left by the previous call. -/
theorem compose_idempotent_sequential (WEATHER_API_KEY TAVILY_API_KEY dest : String)
    (interests : List String) (wb : ProviderBehaviour) (sb : SearchBehaviour)
    (mb : ModelBehaviour) (env : Env) :
    (run_travel_assistant WEATHER_API_KEY TAVILY_API_KEY dest interests wb sb mb
        ((run_travel_assistant WEATHER_API_KEY TAVILY_API_KEY dest interests wb sb mb env).2.1)).2.2 =
      (run_travel_assistant WEATHER_API_KEY TAVILY_API_KEY dest interests wb sb mb env).2.2 ∧
    (run_travel_assistant WEATHER_API_KEY TAVILY_API_KEY dest interests wb sb mb
        ((run_travel_assistant WEATHER_API_KEY TAVILY_API_KEY dest interests wb sb mb env).2.1)).1 =
      (run_travel_assistant WEATHER_API_KEY TAVILY_API_KEY dest interests wb sb mb env).1 := by
  obtain ⟨h1, h2⟩ := run_travel_assistant_env_indep WEATHER_API_KEY TAVILY_API_KEY
    dest interests wb sb mb
    ((run_travel_assistant WEATHER_API_KEY TAVILY_API_KEY dest interests wb sb mb env).2.1) env
  exact ⟨h2, h1⟩

/-- Claim C10: for every location and provider behaviour, the dictionary
`get_weather` returns has exactly one of two disjoint shapes — the nine-field
weather record in fixed key order with the location label formatted as name,
country, or the single-key error record whose message starts with the fixed
failure prefix. -/
theorem get_weather_two_shapes (WEATHER_API_KEY location : String)
    (beh : ProviderBehaviour) :
    (∃ name country tc tf ct hum wkph fc ff lu,
      get_weather WEATHER_API_KEY location beh =
        [("location", JVal.str (name ++ ", " ++ country)),
         ("temperature_c", JVal.num tc),
         ("temperature_f", JVal.num tf),
         ("condition", JVal.str ct),
         ("humidity", JVal.num hum),
         ("wind_kph", JVal.num wkph),
         ("feels_like_c", JVal.num fc),
         ("feels_like_f", JVal.num ff),
         ("last_updated", JVal.str lu)]) ∨
    (∃ m, get_weather WEATHER_API_KEY location beh =
      [("error", JVal.str ("Failed to get weather information: " ++ m))]) := by
  cases beh with
  | transportFailure m => exact Or.inr ⟨m, rfl⟩
  | httpErrorStatus s m => exact Or.inr ⟨m, rfl⟩
  | badJson m => exact Or.inr ⟨m, rfl⟩
  | ok body =>
    rcases buildWeatherInfo_shape body with
      ⟨name, country, tc, tf, ct, hum, wkph, fc, ff, lu, hok⟩ | ⟨e, he⟩
    · exact Or.inl ⟨name, country, tc, tf, ct, hum, wkph, fc, ff, lu,
        by simp [get_weather, attemptWeather, hok]⟩
    · exact Or.inr ⟨e, by simp [get_weather, attemptWeather, he]⟩

end TravelAgent
